import Mathlib

/-!
Verification development for the streaming temperature-analysis core of
buzzline-03-valenti (src/consumers/csv_consumer_valenti.py).

Modelling conventions:
* Python floats are modelled as exact rationals (ℚ); the claims under study
  are about comparisons and differences, not binary rounding.
* The environment (os.getenv + int()/float() conversion) is modelled as the
  already-decoded numeric value when the variable is set (`some v`) and
  `none` when unset, in which case the source's default literal applies.
* Stateful code (the rolling-window deque mutated in place, the
  previous_temperature variable of main) is modelled by explicit state
  passing.
* Python's dynamic typing and exceptions are modelled explicitly where a
  claim depends on them: JSON field values are `TVal` (number or
  non-number), and fallible code returns `Except PyErr`.
-/

/-- Embeds get_stall_threshold (csv_consumer_valenti.py lines 51-55):
float(os.getenv("SMOKER_STALL_THRESHOLD_F", 0.2)). The env argument is the
decoded numeric value when the variable is set; the default is 0.2 = 1/5. -/
def get_stall_threshold (env : Option ℚ) : ℚ :=
  env.getD (1/5)

/-- Embeds get_rolling_window_size (lines 57-61):
int(os.getenv("SMOKER_ROLLING_WINDOW_SIZE", 5)). Python ints are ℤ. -/
def get_rolling_window_size (env : Option ℤ) : ℤ :=
  env.getD 5

/-- Embeds get_temperature_change_threshold (lines 63-67):
float(os.getenv("TEMP_CHANGE_THRESHOLD_F", 5.0)). -/
def get_temperature_change_threshold (env : Option ℚ) : ℚ :=
  env.getD 5

/-- Python max() over a nonempty list of floats. Python raises ValueError on
an empty sequence; the [] case here is a junk value (0) never relied upon:
the theorems below about detect_stall only reach max/min on nonempty
windows, and the dynamic model detect_stall_t raises explicitly instead. -/
def pymax : List ℚ → ℚ
  | [] => 0
  | x :: xs => xs.foldl max x

/-- Python min() over a nonempty list of floats; same empty-case caveat as
pymax. -/
def pymin : List ℚ → ℚ
  | [] => 0
  | x :: xs => xs.foldl min x

/-- Embeds detect_stall (lines 73-83) at the float level of its intended
inputs. The function re-reads the window size and the stall threshold from
the environment on every call, so both env values are parameters.
Returns temp_range <= threshold once the window has reached WINDOW_SIZE. -/
def detect_stall (envN : Option ℤ) (envT : Option ℚ)
    (rolling_window_deque : List ℚ) : Bool :=
  let WINDOW_SIZE := get_rolling_window_size envN
  if (rolling_window_deque.length : ℤ) < WINDOW_SIZE then
    false
  else
    decide (pymax rolling_window_deque - pymin rolling_window_deque
      ≤ get_stall_threshold envT)

/-- Embeds check_for_temperature_change (lines 100-113) at the float level
of its type annotations. previous_temperature is an Option because the
first call receives Python None (the guard at line 102). The first
component is the function's return value (always the current temperature,
line 113); the second models the warning log of line 110: `some change`
exactly when the significant-change warning fires (change > threshold),
`none` otherwise. -/
def check_for_temperature_change (envC : Option ℚ) (temperature : ℚ)
    (previous_temperature : Option ℚ) : ℚ × Option ℚ :=
  match previous_temperature with
  | none => (temperature, none)
  | some p =>
    let temp_change_threshold := get_temperature_change_threshold envC
    let change := |temperature - p|
    (temperature, if temp_change_threshold < change then some change else none)

/-- Embeds one append to a collections.deque with the given maxlen
(rolling_window is created as deque(maxlen=window_size) at line 166 and
appended to at line 140): the value goes to the right and, if the length
would exceed maxlen, the leftmost (oldest) elements are discarded so the
length settles at maxlen. -/
def dequePush {α : Type} (maxlen : ℕ) (w : List α) (x : α) : List α :=
  let w' := w ++ [x]
  if maxlen < w'.length then w'.drop (w'.length - maxlen) else w'

/-- A sequence of deque appends, oldest first, starting from contents w. -/
def pushAll {α : Type} (maxlen : ℕ) (w : List α) (xs : List α) : List α :=
  xs.foldl (dequePush maxlen) w

theorem dequePush_eq_drop {α : Type} (maxlen : ℕ) (w : List α) (x : α) :
    dequePush maxlen w x = (w ++ [x]).drop ((w ++ [x]).length - maxlen) := by
  by_cases h : maxlen < (w ++ [x]).length
  · simp only [dequePush, if_pos h]
  · have h0 : (w ++ [x]).length - maxlen = 0 := by omega
    simp only [dequePush, if_neg h, h0, List.drop_zero]

theorem pushAll_eq_drop {α : Type} (maxlen : ℕ) :
    ∀ (xs w : List α), w.length ≤ maxlen →
      pushAll maxlen w xs = (w ++ xs).drop ((w ++ xs).length - maxlen) := by
  intro xs
  induction xs with
  | nil =>
    intro w hw
    have h0 : w.length - maxlen = 0 := by omega
    simp [pushAll, h0]
  | cons x xs ih =>
    intro w hw
    have hstep : pushAll maxlen w (x :: xs) = pushAll maxlen (dequePush maxlen w x) xs := by
      simp [pushAll]
    rw [hstep, dequePush_eq_drop]
    have hkle : (w ++ [x]).length - maxlen ≤ (w ++ [x]).length := by omega
    have hle : ((w ++ [x]).drop ((w ++ [x]).length - maxlen)).length ≤ maxlen := by
      simp only [List.length_drop]; omega
    rw [ih _ hle]
    have e1 : (w ++ [x]).drop ((w ++ [x]).length - maxlen) ++ xs
        = ((w ++ [x]) ++ xs).drop ((w ++ [x]).length - maxlen) :=
      (List.drop_append_of_le_length hkle).symm
    rw [e1, List.drop_drop]
    have harr : (w ++ [x]) ++ xs = w ++ x :: xs := by
      rw [List.append_assoc, List.singleton_append]
    rw [harr]
    congr 1
    simp only [List.length_drop, List.length_append, List.length_cons,
      List.length_nil]
    omega

/-- A JSON field value relevant to process_message: a number (Python float/
int) or a non-numeric value such as a string. A JSON null field gives
Python None through data.get, so it is modelled the same as a missing
field (Option.none) at the use site. -/
inductive TVal where
  | num (q : ℚ)
  | str (s : String)
  deriving DecidableEq

/-- The runtime exceptions that the body of process_message can raise:
json.JSONDecodeError from json.loads on non-JSON text; AttributeError from
data.get when json.loads yields a non-dict; TypeError from arithmetic or
max/min over non-numeric operands; ValueError from max()/min() on an empty
sequence. All are subclasses of Exception. -/
inductive PyErr where
  | jsonDecodeError
  | attributeError
  | typeError
  | valueError
  deriving DecidableEq

/-- An incoming message string as it parses: badJson (json.loads raises),
nonObject (parses but not a dict, so data.get raises AttributeError), or a
dict with optional temperature and timestamp fields. -/
inductive Msg where
  | badJson
  | nonObject
  | obj (temperature : Option TVal) (timestamp : Option TVal)
  deriving DecidableEq

/-- Dynamic-typing model of check_for_temperature_change (lines 100-113):
with a present previous value, abs(temperature - previous_temperature)
raises TypeError unless both operands are numeric. With previous None the
function returns before any arithmetic (line 104). The Option ℚ component
models the warning log as in the float-level embedding. -/
def check_for_temperature_change_t (envC : Option ℚ) (temperature : TVal)
    (previous_temperature : Option TVal) : Except PyErr (TVal × Option ℚ) :=
  match previous_temperature with
  | none => .ok (temperature, none)
  | some p =>
    match temperature, p with
    | .num a, .num b =>
      let temp_change_threshold := get_temperature_change_threshold envC
      let change := |a - b|
      .ok (temperature,
        if temp_change_threshold < change then some change else none)
    | _, _ => .error .typeError

/-- Extracts the numeric values of a window, or none if any entry is
non-numeric. -/
def numsOf : List TVal → Option (List ℚ)
  | [] => some []
  | .num q :: rest => (numsOf rest).map (fun l => q :: l)
  | .str _ :: _ => none

/-- Dynamic-typing model of detect_stall (lines 73-83): below the window
size it returns False without touching the contents; at or above it,
max()/min() on an empty window raises ValueError, and a window containing
a non-numeric value raises TypeError (from mixed-type max/min or from the
subtraction); otherwise it computes the spread as in the float model. -/
def detect_stall_t (envN : Option ℤ) (envT : Option ℚ) (w : List TVal) :
    Except PyErr Bool :=
  let WINDOW_SIZE := get_rolling_window_size envN
  if (w.length : ℤ) < WINDOW_SIZE then
    .ok false
  else
    match w, numsOf w with
    | [], _ => .error .valueError
    | _ :: _, none => .error .typeError
    | _ :: _, some qs =>
      .ok (decide (pymax qs - pymin qs ≤ get_stall_threshold envT))

/-- Everything observable from one process_message call: the rolling-window
contents after the call (the deque is mutated in place), whether the
invalid-format error log fired (line 133), the significant-change warning
if any (line 110), whether the stall log fired (line 144), and the
exception caught by an except clause if one was raised (lines 146-149). -/
structure Outcome where
  window : List TVal
  invalid : Bool
  significantChange : Option ℚ
  stalled : Bool
  caught : Option PyErr
  deriving DecidableEq

/-- The try-block body of process_message (lines 121-144), before the
except clauses: errors carry the window contents at the raise point, since
the deque mutation at line 140 persists even if detect_stall then raises.
The local rebinding of previous_temperature at line 137 is invisible to
the caller (the function returns None), so it is not part of the result. -/
def process_message_body (envN : Option ℤ) (envT envC : Option ℚ)
    (maxlen : ℕ) (message : Msg) (rolling_window : List TVal)
    (previous_temperature : Option TVal) :
    Except (PyErr × List TVal) Outcome :=
  match message with
  | .badJson => .error (.jsonDecodeError, rolling_window)
  | .nonObject => .error (.attributeError, rolling_window)
  | .obj temperature timestamp =>
    match temperature, timestamp with
    | none, _ => .ok ⟨rolling_window, true, none, false, none⟩
    | some _, none => .ok ⟨rolling_window, true, none, false, none⟩
    | some t, some _ts =>
      match check_for_temperature_change_t envC t previous_temperature with
      | .error e => .error (e, rolling_window)
      | .ok (_ret, significantChange) =>
        let w := dequePush maxlen rolling_window t
        match detect_stall_t envN envT w with
        | .error e => .error (e, w)
        | .ok stalled => .ok ⟨w, false, significantChange, stalled, none⟩

/-- Result of a call to process_message as seen by main: either the
function returned normally, or an exception escaped uncaught (carrying the
window contents at that point). -/
inductive PMResult where
  | returned (o : Outcome)
  | uncaught (e : PyErr) (w : List TVal)
  deriving DecidableEq

/-- Matches the first except clause at line 146: except json.JSONDecodeError. -/
def isJSONDecodeError : PyErr → Bool
  | .jsonDecodeError => true
  | _ => false

/-- Matches the second except clause at line 148: except Exception; every
runtime error the body can raise is an Exception subclass. -/
def isException : PyErr → Bool :=
  fun _ => true

/-- Embeds process_message (lines 119-149): the try-block body guarded by
the two except clauses, each of which logs the error and returns normally.
The uncaught constructor is reached only by an error no clause matches. -/
def process_message (envN : Option ℤ) (envT envC : Option ℚ) (maxlen : ℕ)
    (message : Msg) (rolling_window : List TVal)
    (previous_temperature : Option TVal) : PMResult :=
  match process_message_body envN envT envC maxlen message rolling_window
      previous_temperature with
  | .ok o => .returned o
  | .error (e, w) =>
    if isJSONDecodeError e then .returned ⟨w, false, none, false, some e⟩
    else if isException e then .returned ⟨w, false, none, false, some e⟩
    else .uncaught e w

/-- Embeds the configuration part of main (lines 162-166): window_size is
read once and used as the deque maxlen. deque(maxlen=window_size) raises
ValueError for a negative maxlen and that error is not inside any try in
main, so it is fatal; any non-negative value, including 0, is accepted.
No other validation of configuration values exists anywhere in the source. -/
def mainConstruct (envN : Option ℤ) : Except PyErr ℕ :=
  let window_size := get_rolling_window_size envN
  if window_size < 0 then .error .valueError else .ok window_size.toNat

/-- The mutable state of main's polling loop (lines 166-178): the deque
contents, main's previous_temperature variable, and the results of the
process_message calls made so far. -/
structure LoopState where
  rolling_window : List TVal
  previous_temperature : Option TVal
  results : List PMResult
  deriving DecidableEq

/-- Window contents after a call (from the outcome, or at the raise point). -/
def resultWindow : PMResult → List TVal
  | .returned o => o.window
  | .uncaught _ w => w

/-- The significant-change warning of a call, if one fired. -/
def changeOf : PMResult → Option ℚ
  | .returned o => o.significantChange
  | .uncaught _ _ => none

/-- Whether the invalid-format error log of a call fired. -/
def invalidOf : PMResult → Bool
  | .returned o => o.invalid
  | .uncaught _ _ => false

/-- One iteration of main's for loop (lines 175-178): process_message is
called with main's previous_temperature. The source never rebinds
previous_temperature in the loop — process_message returns None and the
rebinding of its parameter at line 137 is local — so the loop state keeps
its previous value unchanged. -/
def consume_step (envN : Option ℤ) (envT envC : Option ℚ) (maxlen : ℕ)
    (st : LoopState) (message : Msg) : LoopState :=
  let r := process_message envN envT envC maxlen message st.rolling_window
    st.previous_temperature
  ⟨resultWindow r, st.previous_temperature, st.results ++ [r]⟩

/-- Embeds main's per-message behavior (lines 155-178): an empty deque with
maxlen = window_size, previous_temperature initialized to None (line 167),
then one consume_step per received message in arrival order. -/
def mainLoop (envN : Option ℤ) (envT envC : Option ℚ)
    (messages : List Msg) : LoopState :=
  let window_size := (get_rolling_window_size envN).toNat
  messages.foldl (consume_step envN envT envC window_size) ⟨[], none, []⟩

/-- C2: the claim says the ChangeDetector's previous value starts absent
and transitions to present(temperature) after every processed reading.
The code violates this: process_message returns None and main never
rebinds previous_temperature, so after any sequence of messages — valid
readings included — main's previous_temperature is still None, and every
change comparison is made against the initial absent state rather than
the immediately preceding valid reading. -/
theorem c2_previous_temperature_stays_none (envN : Option ℤ)
    (envT envC : Option ℚ) (messages : List Msg) :
    (mainLoop envN envT envC messages).previous_temperature = none := by
  have key : ∀ (msgs : List Msg) (st : LoopState),
      (msgs.foldl (consume_step envN envT envC
        ((get_rolling_window_size envN).toNat)) st).previous_temperature
        = st.previous_temperature := by
    intro msgs
    induction msgs with
    | nil => intro st; rfl
    | cons m ms ih => intro st; rw [List.foldl_cons, ih]; rfl
  exact key messages ⟨[], none, []⟩

/-- C1: the claim says that for consecutive readings a then b on the same
stream, b is reported as a SignificantChange with delta equal to the
absolute difference exactly when that difference exceeds T_change, so
with T_change = 5.0 the sequence 200, 206 must report delta 6.0 on the
second reading. The code does not: with the default threshold 5.0, running
main's loop over the two readings produces no significant-change warning
on either call, because previous_temperature is still None at the second
call. -/
theorem c1_stream_never_reports_change :
    ((mainLoop none none none
      [Msg.obj (some (TVal.num 200)) (some (TVal.str "t1")),
       Msg.obj (some (TVal.num 206)) (some (TVal.str "t2"))]).results.map
        changeOf) = [none, none] := by
  rfl

/-- C3: for a window holding exactly WINDOW_SIZE readings (with a positive
window size, as configuration requires), detect_stall returns true exactly
when the spread max - min is at most the stall threshold; the bound is
inclusive, so spread equal to the threshold counts as stalled. -/
theorem c3_full_window_stall_iff_spread_le (envN : Option ℤ)
    (envT : Option ℚ) (w : List ℚ)
    (hlen : (w.length : ℤ) = get_rolling_window_size envN)
    (hpos : 0 < w.length) :
    detect_stall envN envT w = true
      ↔ pymax w - pymin w ≤ get_stall_threshold envT := by
  have hnot : ¬ ((w.length : ℤ) < get_rolling_window_size envN) := by omega
  simp [detect_stall, hnot]

/-- Witness for C3 at the boundary: window size 3, default threshold 0.2,
window 100, 100.2, 100 has spread exactly 0.2 and is reported stalled. -/
theorem c3_full_window_stall_iff_spread_le_witness :
    detect_stall (some 3) none [100, 501/5, 100] = true :=
  (c3_full_window_stall_iff_spread_le (some 3) none [100, 501/5, 100]
    (by decide) (by decide)).mpr
    (by norm_num [pymax, pymin, get_stall_threshold, max_def, min_def])

/-- C4: for a window holding fewer readings than WINDOW_SIZE, detect_stall
returns false regardless of the window's values and of the tolerance. -/
theorem c4_short_window_not_stalled (envN : Option ℤ) (envT : Option ℚ)
    (w : List ℚ)
    (h : (w.length : ℤ) < get_rolling_window_size envN) :
    detect_stall envN envT w = false := by
  simp [detect_stall, h]

/-- Witness for C4: two readings against the default window size 5, with a
negative tolerance and wildly different values, still report no stall. -/
theorem c4_short_window_not_stalled_witness :
    detect_stall none (some (-5)) [1000, 0] = false :=
  c4_short_window_not_stalled none (some (-5)) [1000, 0] (by decide)

/-- C5: starting from an empty deque with maxlen N, after pushing the
values xs one at a time the deque holds at most N elements, exactly
min(length xs, N) of them, and its contents are the last N pushed values
in arrival order (the oldest are evicted first once the deque is full). -/
theorem c5_rolling_window_last_n (α : Type) (N : ℕ) (xs : List α) :
    (pushAll N [] xs).length ≤ N ∧
    (pushAll N [] xs).length = min xs.length N ∧
    pushAll N [] xs = xs.drop (xs.length - N) := by
  have h := pushAll_eq_drop N xs [] (by simp)
  simp only [List.nil_append] at h
  refine ⟨?_, ?_, h⟩
  · rw [h, List.length_drop]; omega
  · rw [h, List.length_drop]; omega

/-- C6: the claim says a malformed reading leaves the window and the
previous value unchanged, so the next valid reading is compared against
the previous valid value. The first half holds in the code: the stream
200, then a reading with no temperature field, then 206 leaves the window
holding exactly the two valid readings and flags only the malformed one
as invalid. The consequence fails: the third reading fires no
significant-change warning (the claim, with the default threshold 5.0,
requires delta 6.0 against the previous valid value 200), because main's
previous_temperature is still None — no previous valid value was ever
stored. -/
theorem c6_malformed_midstream_eval :
    (mainLoop none none none
      [Msg.obj (some (TVal.num 200)) (some (TVal.str "t1")),
       Msg.obj none (some (TVal.str "t2")),
       Msg.obj (some (TVal.num 206)) (some (TVal.str "t3"))]).rolling_window
      = [TVal.num 200, TVal.num 206] ∧
    ((mainLoop none none none
      [Msg.obj (some (TVal.num 200)) (some (TVal.str "t1")),
       Msg.obj none (some (TVal.str "t2")),
       Msg.obj (some (TVal.num 206)) (some (TVal.str "t3"))]).results.map
        invalidOf) = [false, true, false] ∧
    ((mainLoop none none none
      [Msg.obj (some (TVal.num 200)) (some (TVal.str "t1")),
       Msg.obj none (some (TVal.str "t2")),
       Msg.obj (some (TVal.num 206)) (some (TVal.str "t3"))]).results.map
        changeOf) = [none, none, none] := by
  refine ⟨rfl, rfl, rfl⟩

/-- C7: for every input message (non-JSON text, non-object JSON, and
objects with missing or non-numeric fields included) and every state,
process_message returns normally: every exception the try-block body can
raise is matched by an except clause (the catch-all except Exception in
particular), and a caught error is reported in the outcome as data — the
caught field records the exception and the window field the deque
contents at the raise point. -/
theorem c7_process_message_catches_all (envN : Option ℤ)
    (envT envC : Option ℚ) (maxlen : ℕ) (message : Msg)
    (rolling_window : List TVal) (previous_temperature : Option TVal) :
    ∃ o : Outcome,
      process_message envN envT envC maxlen message rolling_window
        previous_temperature = PMResult.returned o ∧
      ∀ e w, process_message_body envN envT envC maxlen message
          rolling_window previous_temperature = Except.error (e, w) →
        o.caught = some e ∧ o.window = w := by
  cases hb : process_message_body envN envT envC maxlen message
      rolling_window previous_temperature with
  | ok o =>
    refine ⟨o, by simp [process_message, hb], ?_⟩
    intro e w he
    simp at he
  | error p =>
    obtain ⟨e, w⟩ := p
    refine ⟨⟨w, false, none, false, some e⟩, ?_, ?_⟩
    · simp [process_message, hb, isException]
    · intro e' w' he'
      simp only [Except.error.injEq, Prod.mk.injEq] at he'
      obtain ⟨h1, h2⟩ := he'
      subst h1
      subst h2
      exact ⟨rfl, rfl⟩

/-- C8 counterexample: the claim says a non-positive window size or a
negative threshold is rejected at construction, not at first use. In the
code, a window size of 0 and thresholds of -1 are returned as-is by the
configuration getters, main's construction succeeds (deque(maxlen=0) is
legal), and the failure only happens at first use: processing the first
valid reading raises ValueError inside detect_stall (max of an empty
window) — which is caught per-reading, not fatal. -/
theorem c8_invalid_config_accepted :
    get_rolling_window_size (some 0) = 0 ∧
    get_stall_threshold (some (-1)) = -1 ∧
    get_temperature_change_threshold (some (-1)) = -1 ∧
    mainConstruct (some 0) = Except.ok 0 ∧
    process_message (some 0) none none 0
      (Msg.obj (some (TVal.num 200)) (some (TVal.str "t"))) [] none
      = PMResult.returned ⟨[], false, none, false, some PyErr.valueError⟩ := by
  refine ⟨rfl, rfl, rfl, rfl, rfl⟩

/-- C8 amended: the configuration getters perform no validation — every
set value, non-positive window sizes and negative thresholds included, is
returned unchanged (the defaults apply only when the variable is unset),
and main's construction succeeds for every non-negative window size. -/
theorem c8_config_not_validated (n : ℤ) (t c : ℚ) (hn : 0 ≤ n) :
    get_rolling_window_size (some n) = n ∧
    get_stall_threshold (some t) = t ∧
    get_temperature_change_threshold (some c) = c ∧
    mainConstruct (some n) = Except.ok n.toNat := by
  have hnot : ¬ n < 0 := by omega
  exact ⟨rfl, rfl, rfl,
    by simp [mainConstruct, get_rolling_window_size, Option.getD, hnot]⟩

/-- Witness for the amended C8 at window size 0 and thresholds -1. -/
theorem c8_config_not_validated_witness :
    get_rolling_window_size (some 0) = 0 ∧
    get_stall_threshold (some (-1)) = -1 ∧
    get_temperature_change_threshold (some (-1)) = -1 ∧
    mainConstruct (some 0) = Except.ok (0 : ℤ).toNat :=
  c8_config_not_validated 0 (-1) (-1) (by decide)

/-- C9: the first call on a fresh detector (previous value absent) returns
the temperature with no event, whatever the value passed — and, at the
dynamic level, it performs no subtraction at all: even a non-numeric
first value returns normally instead of raising TypeError. -/
theorem c9_first_observation_no_event (envC : Option ℚ) (t : ℚ)
    (tv : TVal) :
    check_for_temperature_change envC t none = (t, none) ∧
    check_for_temperature_change_t envC tv none = Except.ok (tv, none) :=
  ⟨rfl, rfl⟩

/-- C10: check_for_temperature_change returns exactly its temperature
argument for every previous value (absent or present) and every
threshold; the returned value never encodes whether a significant change
was detected — detection is observable only through the warning log,
modelled here as the second component. -/
theorem c10_returns_temperature_argument (envC : Option ℚ) (t : ℚ)
    (prev : Option ℚ) :
    (check_for_temperature_change envC t prev).1 = t := by
  cases prev <;> rfl
